import Mathlib

/-!
Verification of the SQLite repository core (`bookkeeper/repository/sqlite_repository.py`).

The Python module is shallowly embedded: Python runtime values of the domain
(strings, ints, floats, datetimes, None) become the inductive `Value`; SQLite
storage values become `SQLVal`; the database is a list of rows; every raised
Python exception becomes a constructor of `Err`.  Real numbers are modelled by
`Rat` (the code only moves them around, never computes with them, so only
decidable equality is needed).  Each Python function of the module is
translated one-to-one into a Lean definition bearing its name.
-/

namespace Bookkeeper

/-- The `PK_FIELD_NAME` constant from `abstract_repository`. -/
def PK_FIELD_NAME : String := "primary_key"

/-- Python `datetime.datetime` values, at microsecond precision. -/
structure DateTime where
  year : Nat
  month : Nat
  day : Nat
  hour : Nat
  minute : Nat
  second : Nat
  microsecond : Nat
deriving DecidableEq

/-- Gregorian leap-year rule, as implemented by Python's `datetime`. -/
def isLeapYear (y : Nat) : Bool :=
  y % 4 = 0 && (y % 100 ≠ 0 || y % 400 = 0)

/-- Days in a month, as validated by Python's `datetime` constructor. -/
def daysInMonth (y m : Nat) : Nat :=
  if m = 2 then (if isLeapYear y then 29 else 28)
  else if m = 4 ∨ m = 6 ∨ m = 9 ∨ m = 11 then 30
  else 31

/-- The validity check performed by Python's `datetime` constructor:
a `datetime` object satisfying this exists exactly for these components. -/
def DateTime.valid (dt : DateTime) : Bool :=
  1 ≤ dt.year && dt.year ≤ 9999 &&
  1 ≤ dt.month && dt.month ≤ 12 &&
  1 ≤ dt.day && dt.day ≤ daysInMonth dt.year dt.month &&
  dt.hour ≤ 23 && dt.minute ≤ 59 && dt.second ≤ 59 &&
  dt.microsecond ≤ 999999

/-- Two-digit zero-padded decimal rendering, as produced by `strftime`
for the `%d %m %y %H %M %S` directives (all their values are below 100). -/
def pad2 (n : Nat) : List Char :=
  [Nat.digitChar (n / 10 % 10), Nat.digitChar (n % 10)]

/-- Six-digit zero-padded decimal rendering, as produced by `strftime` `%f`. -/
def pad6 (n : Nat) : List Char :=
  [Nat.digitChar (n / 100000 % 10), Nat.digitChar (n / 10000 % 10),
   Nat.digitChar (n / 1000 % 10), Nat.digitChar (n / 100 % 10),
   Nat.digitChar (n / 10 % 10), Nat.digitChar (n % 10)]

/-- Source `_datetime_fmt = "%d/%m/%y %H:%M:%S.%f"`: the character sequence
`strftime` produces for a valid datetime under that format. -/
def encodeChars (dt : DateTime) : List Char :=
  pad2 dt.day ++ '/' ::
    (pad2 dt.month ++ '/' ::
      (pad2 (dt.year % 100) ++ ' ' ::
        (pad2 dt.hour ++ ':' ::
          (pad2 dt.minute ++ ':' ::
            (pad2 dt.second ++ '.' :: pad6 dt.microsecond)))))

/-- Source `val.strftime(SqliteRepository._datetime_fmt)` from `_val_to_sql`. -/
def encodeDatetime (dt : DateTime) : String :=
  ⟨encodeChars dt⟩

/-- A decimal digit character to its value, else failure. -/
def parseDigit (c : Char) : Option Nat :=
  if c.isDigit then some (c.toNat - 48) else none

/-- Greedy one-or-two-digit numeric field, as `strptime` matches
`%d %m %H %M %S`. -/
def parse2 : List Char → Option (Nat × List Char)
  | [] => none
  | c :: rest =>
    match parseDigit c with
    | none => none
    | some d =>
      match rest with
      | [] => some (d, [])
      | c2 :: rest2 =>
        match parseDigit c2 with
        | some d2 => some (d * 10 + d2, rest2)
        | none => some (d, rest)

/-- Exactly-two-digit numeric field, as `strptime` matches `%y`. -/
def parseY2 : List Char → Option (Nat × List Char)
  | c1 :: c2 :: rest => do
    let d1 ← parseDigit c1
    let d2 ← parseDigit c2
    pure (d1 * 10 + d2, rest)
  | _ => none

/-- Consume up to `fuel` leading digits, returning the accumulated value,
the count of digits consumed, and the remaining characters. -/
def parseDigits : Nat → List Char → Nat → Nat → Nat × Nat × List Char
  | 0, cs, acc, cnt => (acc, cnt, cs)
  | _ + 1, [], acc, cnt => (acc, cnt, [])
  | fuel + 1, c :: cs, acc, cnt =>
    match parseDigit c with
    | none => (acc, cnt, c :: cs)
    | some d => parseDigits fuel cs (acc * 10 + d) (cnt + 1)

/-- One-to-six-digit fractional-second field: `strptime` `%f` matches up to
six digits and right-pads the match with zeros to microseconds. -/
def parseFrac (cs : List Char) : Option (Nat × List Char) :=
  match parseDigits 6 cs 0 0 with
  | (_, 0, _) => none
  | (v, k, rest) => some (v * 10 ^ (6 - k), rest)

/-- Require the next character to be `c`. -/
def expectChar (c : Char) : List Char → Option (List Char)
  | c2 :: rest => if c2 = c then some rest else none
  | [] => none

/-- Source `datetime.strptime(val, "%d/%m/%y %H:%M:%S.%f")` on the character list:
parse each directive in order, apply the POSIX two-digit-year pivot
(00-68 means 2000-2068, 69-99 means 1969-1999), require the whole input
consumed, and validate the components as the `datetime` constructor does. -/
def decodeChars (cs : List Char) : Option DateTime := do
  let (d, cs) ← parse2 cs
  let cs ← expectChar '/' cs
  let (m, cs) ← parse2 cs
  let cs ← expectChar '/' cs
  let (yy, cs) ← parseY2 cs
  let cs ← expectChar ' ' cs
  let (hh, cs) ← parse2 cs
  let cs ← expectChar ':' cs
  let (mi, cs) ← parse2 cs
  let cs ← expectChar ':' cs
  let (ss, cs) ← parse2 cs
  let cs ← expectChar '.' cs
  let (ff, cs) ← parseFrac cs
  if cs ≠ [] then none
  else
    let y := if yy ≤ 68 then 2000 + yy else 1900 + yy
    let dt : DateTime := ⟨y, m, d, hh, mi, ss, ff⟩
    if dt.valid then some dt else none

/-- Source `datetime.strptime` on a string. -/
def decodeDatetime (s : String) : Option DateTime :=
  decodeChars s.data

/-- The semantic (annotation) types a model class can declare.  `pyOther`
stands for any annotation outside the `_type_mappings` table. -/
inductive PyType where
  | pyStr
  | pyInt
  | pyFloat
  | pyDatetime
  | pyOther (n : String)
deriving DecidableEq

/-- Python runtime values of the domain handled by the repository. -/
inductive Value where
  | vStr (s : String)
  | vInt (n : Int)
  | vFloat (q : Rat)
  | vDatetime (dt : DateTime)
  | vNone
deriving DecidableEq

/-- SQLite storage classes for the values this module can store. -/
inductive SQLVal where
  | sNull
  | sInt (n : Int)
  | sReal (q : Rat)
  | sText (s : String)
deriving DecidableEq

/-- The Python exceptions raised by the module, by kind and message. -/
inductive Err where
  | valueError (msg : String)
  | typeError (msg : String)
  | keyError (msg : String)
  | attributeError (msg : String)
  | operationalError (msg : String)
deriving DecidableEq

/-- Rendering of a semantic type inside error messages. -/
def PyType.pyName : PyType → String
  | .pyStr => "str"
  | .pyInt => "int"
  | .pyFloat => "float"
  | .pyDatetime => "datetime.datetime"
  | .pyOther n => n

/-- The runtime type of a value, rendered as Python would name it. -/
def Value.pyTypeName : Value → String
  | .vStr _ => "str"
  | .vInt _ => "int"
  | .vFloat _ => "float"
  | .vDatetime _ => "datetime.datetime"
  | .vNone => "NoneType"

/-- Ordered-dictionary lookup: the value bound to the first occurrence of
`key`, mirroring Python `dict` indexing over an insertion-ordered mapping. -/
def alookup {α : Type} : List (String × α) → String → Option α
  | [], _ => none
  | p :: rest, key => if p.1 = key then some p.2 else alookup rest key

/-- Python `dict.pop(key)`: the mapping without `key`, or failure when
`key` is absent. -/
def popKey {α : Type} : List (String × α) → String → Option (List (String × α))
  | [], _ => none
  | p :: rest, key =>
    if p.1 = key then some rest
    else
      match popKey rest key with
      | some rest2 => some (p :: rest2)
      | none => none

/-- Source `_map_to_sql`: the `_type_mappings` dictionary lookup, raising
`ValueError` for a type with no registered mapping. -/
def map_to_sql : PyType → Except Err String
  | .pyStr => .ok "TEXT"
  | .pyInt => .ok "INTEGER"
  | .pyFloat => .ok "REAL"
  | .pyDatetime => .ok "DATETIME"
  | .pyOther n => .error (.valueError ("Type " ++ n ++ " is not supported yet"))

/-- Source `_val_to_sql` composed with the `sqlite3` driver binding: a datetime is
formatted with `_datetime_fmt` and stored as text; a string, integer, real
or `None` is stored in its native storage class unchanged. -/
def val_to_sql : Value → SQLVal
  | .vDatetime dt => .sText (encodeDatetime dt)
  | .vStr s => .sText s
  | .vInt n => .sInt n
  | .vFloat q => .sReal q
  | .vNone => .sNull

/-- Source `_make_val_from_sql`: for an expected datetime the stored value must be
text and is parsed with `strptime` (`ValueError` on a parse failure,
`TypeError` on a non-string argument); every other expected type returns
the fetched value unchanged. -/
def make_val_from_sql : PyType → SQLVal → Except Err Value
  | .pyDatetime, .sText s =>
    match decodeDatetime s with
    | some dt => .ok (.vDatetime dt)
    | none => .error (.valueError ("time data " ++ s ++ " does not match format"))
  | .pyDatetime, _ =>
    .error (.typeError "strptime() argument 1 must be str")
  | _, .sNull => .ok .vNone
  | _, .sInt n => .ok (.vInt n)
  | _, .sReal q => .ok (.vFloat q)
  | _, .sText s => .ok (.vStr s)

/-- Source `isinstance(mapped_val, exp_type)` over this value universe.  (The
Python subtlety that `bool` is a subclass of `int` cannot arise here: no
boolean ever comes back from a fetch or from `strptime`.) -/
def valIsInstance : Value → PyType → Bool
  | .vStr _, .pyStr => true
  | .vInt _, .pyInt => true
  | .vFloat _, .pyFloat => true
  | .vDatetime _, .pyDatetime => true
  | _, _ => false

/-- The state `__init__` leaves behind: the lower-cased table name and the
annotation mapping with the primary-key entry popped. -/
structure Repo where
  table_name : String
  fields : List (String × PyType)
deriving DecidableEq

/-- Source `", ".join(self._fields)`. -/
def fieldNames (r : Repo) : String :=
  String.intercalate ", " (r.fields.map (fun p => p.1))

/-- The generator `f"{name} {self._map_to_sql(tpy)}" for name, tpy in
self._fields.items()` run to completion: the column declarations in field
order, raising on the first unmapped type. -/
def mapColumns : List (String × PyType) → Except Err (List String)
  | [] => .ok []
  | p :: rest =>
    match map_to_sql p.2 with
    | .error e => .error e
    | .ok s =>
      match mapColumns rest with
      | .error e => .error e
      | .ok ss => .ok ((p.1 ++ " " ++ s) :: ss)

/-- Source `__init__(db_filename, cls)` followed by `_init_database`:
`cls.__name__.lower()` names the table; `get_annotations(cls)` gives the
ordered field mapping; an empty mapping raises `TypeError`; popping
`PK_FIELD_NAME` raises `KeyError` when it is not annotated; building the
create-table statement maps every remaining field type (raising
`ValueError` for an unmapped type); finally SQLite rejects the statement
with a syntax error when no field is left after the pop, because the
generated column list then ends in a dangling comma. -/
def makeRepo (clsName : String) (annotations : List (String × PyType)) :
    Except Err Repo :=
  if annotations.length = 0 then
    .error (.typeError "Trying to create repository without annotated fields")
  else
    match popKey annotations PK_FIELD_NAME with
    | none => .error (.keyError PK_FIELD_NAME)
    | some fields =>
      match mapColumns fields with
      | .error e => .error e
      | .ok _ =>
        if fields.isEmpty then
          .error (.operationalError "near \x22)\x22: syntax error")
        else
          .ok ⟨clsName.toLower, fields⟩

/-- A record instance.  `primary_key = none` models an object without the
`primary_key` attribute; `attrs` are the remaining attributes by name. -/
structure Obj where
  primary_key : Option Int
  attrs : List (String × Value)
deriving DecidableEq

/-- Source `setattr(obj, name, v)` for a non-key attribute. -/
def setAttrList : List (String × Value) → String → Value → List (String × Value)
  | [], name, v => [(name, v)]
  | p :: rest, name, v =>
    if p.1 = name then (p.1, v) :: rest else p :: setAttrList rest name v

def setattr (obj : Obj) (name : String) (v : Value) : Obj :=
  ⟨obj.primary_key, setAttrList obj.attrs name v⟩

/-- One table row: the assigned primary key and the stored field values in
Field Map order. -/
structure Row where
  pk : Int
  vals : List SQLVal
deriving DecidableEq

/-- The single table, rows in rowid (insertion) order. -/
structure DB where
  rows : List Row
deriving DecidableEq

/-- The largest assigned rowid (0 for an empty table). -/
def maxKey (db : DB) : Int :=
  db.rows.foldr (fun row acc => max row.pk acc) 0

/-- SQLite rowid assignment for an `INTEGER PRIMARY KEY` column when the
key is not given: one more than the largest rowid in use. -/
def newKey (db : DB) : Int :=
  maxKey db + 1

/-- Source `_decompose`: the ordered value list read off the instance, one entry
per Field Map field, each passed through `_val_to_sql`.  A missing
attribute raises `AttributeError`. -/
def decomposeGo (obj : Obj) : List (String × PyType) → Except Err (List SQLVal)
  | [] => .ok []
  | p :: rest =>
    match alookup obj.attrs p.1 with
    | none => .error (.attributeError p.1)
    | some v =>
      match decomposeGo obj rest with
      | .error e => .error e
      | .ok vals => .ok (val_to_sql v :: vals)

def decompose (r : Repo) (obj : Obj) : Except Err (List SQLVal) :=
  decomposeGo obj r.fields

/-- Source `", ".join("?" * len(self._fields))`. -/
def placeholders (r : Repo) : String :=
  String.intercalate ", " (List.replicate r.fields.length "?")

/-- The `CREATE TABLE` text from `_init_database` (`colTypes` are the
`_map_to_sql` images of the field types, in order). -/
def createStmt (r : Repo) (colTypes : List String) : String :=
  "CREATE TABLE IF NOT EXISTS " ++ r.table_name ++
    "(" ++ PK_FIELD_NAME ++ " INTEGER PRIMARY KEY NOT NULL, " ++
    String.intercalate ", "
      ((r.fields.zip colTypes).map (fun p => p.1.1 ++ " " ++ p.2)) ++ ")"

/-- The `INSERT` text from `add`: field values appear only as `?`
placeholders. -/
def insertStmt (r : Repo) : String :=
  "INSERT INTO " ++ r.table_name ++ " (" ++ fieldNames r ++ ") VALUES (" ++
    placeholders r ++ ")"

/-- The `SELECT` text from `get`: the primary key is interpolated into the
text by the f-string, not bound. -/
def getStmt (r : Repo) (primary_key : Int) : String :=
  "SELECT " ++ fieldNames r ++ " FROM " ++ r.table_name ++ " WHERE " ++
    PK_FIELD_NAME ++ " = " ++ toString primary_key

/-- Source `[where[name] for name in where]`: each key of the filter mapping,
in iteration order, looked up in the mapping itself. -/
def dictValues (w : List (String × Value)) : List Value :=
  w.map (fun p => (alookup w p.1).getD .vNone)

/-- The `SELECT` text and parameter list from `get_all`: without a filter,
the plain select; with one, a `WHERE` of `name = ?` conditions joined by
`" AND "` over the filter keys in iteration order, the filter values
passed as bound parameters in the same order. -/
def getAllStmt (r : Repo) (whereArg : Option (List (String × Value))) :
    String × List Value :=
  let query := "SELECT " ++ PK_FIELD_NAME ++ ", " ++ fieldNames r ++
    " FROM " ++ r.table_name
  match whereArg with
  | none => (query, [])
  | some w =>
    (query ++ " WHERE " ++
      String.intercalate " AND " (w.map (fun p => p.1 ++ " = ?")),
     dictValues w)

/-- The `UPDATE` text from `update`: field values appear only as `?`
placeholders, while the primary key is interpolated into the text. -/
def updateStmt (r : Repo) (primary_key : Int) : String :=
  "UPDATE " ++ r.table_name ++ " SET (" ++ fieldNames r ++ ") = (" ++
    placeholders r ++ ") WHERE " ++ PK_FIELD_NAME ++ "=" ++
    toString primary_key

/-- The `DELETE` text from `delete`: the primary key is interpolated into
the text. -/
def deleteStmt (r : Repo) (primary_key : Int) : String :=
  "DELETE FROM " ++ r.table_name ++ " WHERE " ++ PK_FIELD_NAME ++ "=" ++
    toString primary_key

/-- The loop body of `_make_obj` over the zipped column/value pairs:
an unknown column name raises `ValueError`; the decoded value must satisfy
`isinstance` against the declared type, else `TypeError`; otherwise it is
assigned onto the instance.  `zip(strict=True)` raises `ValueError` when
one side is exhausted first. -/
def make_obj_go (r : Repo) (obj : Obj) :
    List String → List SQLVal → Except Err Obj
  | [], [] => .ok obj
  | [], _ :: _ => .error (.valueError "zip() arguments of different lengths")
  | _ :: _, [] => .error (.valueError "zip() arguments of different lengths")
  | name :: names, val :: vals =>
    match alookup r.fields name with
    | none => .error (.valueError ("Unexpected field name: " ++ name))
    | some exp_type =>
      match make_val_from_sql exp_type val with
      | .error e => .error e
      | .ok mapped_val =>
        if valIsInstance mapped_val exp_type then
          make_obj_go r (setattr obj name mapped_val) names vals
        else
          .error (.typeError ("Incompatible types: got " ++
            mapped_val.pyTypeName ++ ", expected " ++ exp_type.pyName))

/-- Source `_make_obj`: a fresh instance with the primary key assigned, then every
returned column validated, decoded and assigned in result order. -/
def make_obj (r : Repo) (primary_key : Int) (names : List String)
    (vals : List SQLVal) : Except Err Obj :=
  make_obj_go r ⟨some primary_key, []⟩ names vals

/-- Source `add(obj)`: the result of the call together with the database and the
caller's instance after it.  A missing `primary_key` attribute and a
non-zero one raise distinct `ValueError`s before any insert; on success
the row is appended, the generated rowid is assigned onto the instance,
and that key is returned. -/
def add (r : Repo) (db : DB) (obj : Obj) : Except Err Int × DB × Obj :=
  match obj.primary_key with
  | none =>
    (.error (.valueError ("Trying to add object without `" ++
      PK_FIELD_NAME ++ "` attribute")), db, obj)
  | some prim_key =>
    if prim_key ≠ 0 then
      (.error (.valueError ("Trying to add object with filled `" ++
        PK_FIELD_NAME ++ "` attribute")), db, obj)
    else
      match decompose r obj with
      | .error e => (.error e, db, obj)
      | .ok values =>
        let k := newKey db
        (.ok k, ⟨db.rows ++ [⟨k, values⟩]⟩, ⟨some k, obj.attrs⟩)

/-- Source `get(primary_key)`: select the Field Map columns of the row with that
key; `None` when no row matches, otherwise the instance composed by
`_make_obj` from the cursor description and the fetched values. -/
def get (r : Repo) (db : DB) (primary_key : Int) : Except Err (Option Obj) :=
  match db.rows.find? (fun row => decide (row.pk = primary_key)) with
  | none => .ok none
  | some row =>
    match make_obj r primary_key (r.fields.map (fun p => p.1)) row.vals with
    | .error e => .error e
    | .ok obj => .ok (some obj)

/-- Source `update(obj)`: reads the instance's key (`AttributeError` when the
attribute is missing), decomposes the instance, overwrites the matching
row's field columns, and raises `ValueError` when no row was affected. -/
def update (r : Repo) (db : DB) (obj : Obj) : Except Err Unit × DB :=
  match obj.primary_key with
  | none => (.error (.attributeError PK_FIELD_NAME), db)
  | some primary_key =>
    match decompose r obj with
    | .error e => (.error e, db)
    | .ok values =>
      let changed := db.rows.countP (fun row => decide (row.pk = primary_key))
      if changed = 0 then
        (.error (.valueError ("Trying to update object with key " ++
          toString primary_key ++ ", which does not exist")), db)
      else
        (.ok (), ⟨db.rows.map (fun row =>
          if row.pk = primary_key then ⟨row.pk, values⟩ else row)⟩)

/-- The columns of the table: the primary key, then the Field Map fields
in creation order. -/
def columnsOf (r : Repo) : List String :=
  PK_FIELD_NAME :: r.fields.map (fun p => p.1)

/-- The stored value of a row at a named column. -/
def rowVal (r : Repo) (row : Row) (name : String) : Option SQLVal :=
  if name = PK_FIELD_NAME then some (.sInt row.pk)
  else
    match (r.fields.map (fun p => p.1)).indexOf? name with
    | some i => row.vals.get? i
    | none => none

/-- The `sqlite3` driver's binding of a Python parameter value: native
types bind to their storage class; a datetime is converted by the default
adapter to ISO text (`YYYY-MM-DD HH:MM:SS[.ffffff]`), not to the
repository's own format. -/
def driverBind : Value → SQLVal
  | .vStr s => .sText s
  | .vInt n => .sInt n
  | .vFloat q => .sReal q
  | .vNone => .sNull
  | .vDatetime dt => .sText ⟨
      [Nat.digitChar (dt.year / 1000 % 10), Nat.digitChar (dt.year / 100 % 10)]
      ++ pad2 (dt.year % 100) ++ '-' :: (pad2 dt.month ++ '-' ::
        (pad2 dt.day ++ ' ' :: (pad2 dt.hour ++ ':' ::
          (pad2 dt.minute ++ ':' :: pad2 dt.second))))
      ++ (if dt.microsecond = 0 then [] else '.' :: pad6 dt.microsecond)⟩

/-- SQLite `=` between two non-null storage values (numeric classes
compare across `INTEGER`/`REAL`; `NULL` compares false). -/
def sqlEq : SQLVal → SQLVal → Bool
  | .sInt a, .sInt b => decide (a = b)
  | .sInt a, .sReal b => decide ((a : Rat) = b)
  | .sReal a, .sInt b => decide (a = (b : Rat))
  | .sReal a, .sReal b => decide (a = b)
  | .sText a, .sText b => decide (a = b)
  | _, _ => false

/-- A row satisfies the equality-AND filter when every keyed condition
compares true against the bound parameter. -/
def rowMatches (r : Repo) (row : Row) (w : List (String × Value)) : Bool :=
  w.all (fun p =>
    match rowVal r row p.1 with
    | some v => sqlEq v (driverBind p.2)
    | none => false)

/-- Source `get_all(where)`: no filter selects every row; a filter whose key is
not a column fails at the database layer with `OperationalError`;
otherwise the matching rows, in natural (rowid) order, each composed via
`_make_obj` from the description past the key column. -/
def composeRows (r : Repo) : List Row → Except Err (List Obj)
  | [] => .ok []
  | row :: rest =>
    match make_obj r row.pk (r.fields.map (fun p => p.1)) row.vals with
    | .error e => .error e
    | .ok obj =>
      match composeRows r rest with
      | .error e => .error e
      | .ok objs => .ok (obj :: objs)

def get_all (r : Repo) (db : DB) (whereArg : Option (List (String × Value))) :
    Except Err (List Obj) :=
  match whereArg with
  | none => composeRows r db.rows
  | some w =>
    match w.find? (fun p => decide (p.1 ∉ columnsOf r)) with
    | some p => .error (.operationalError ("no such column: " ++ p.1))
    | none => composeRows r (db.rows.filter (fun row => rowMatches r row w))

/-- Source `delete(primary_key)`: remove the row with that key, raising `KeyError`
when no row was affected. -/
def delete (r : Repo) (db : DB) (primary_key : Int) : Except Err Unit × DB :=
  let changed := db.rows.countP (fun row => decide (row.pk = primary_key))
  if changed = 0 then
    (.error (.keyError ("Trying to delete object with key " ++
      toString primary_key ++ ", which does not exist")), db)
  else
    (.ok (), ⟨db.rows.filter (fun row => decide (row.pk ≠ primary_key))⟩)

/-- A value is representable as a live Python object (datetimes must pass
the constructor's validation; every other value is unconstrained). -/
def Value.wf : Value → Bool
  | .vDatetime dt => dt.valid
  | _ => true

/-- A value whose datetime components (if any) carry a year inside the
two-digit pivot range 1969-2068 of `strptime`'s `%y`. -/
def Value.yearInPivot : Value → Bool
  | .vDatetime dt => decide (1969 ≤ dt.year) && decide (dt.year ≤ 2068)
  | _ => true

/-- A valid record instance for a repository: every Field Map field is
present on the instance with a live value of the declared type. -/
def objValid (r : Repo) (obj : Obj) : Bool :=
  r.fields.all (fun p =>
    match alookup obj.attrs p.1 with
    | some v => valIsInstance v p.2 && v.wf
    | none => false)

/-- Every datetime stored on the instance has its year in the pivot range. -/
def objYearsInPivot (r : Repo) (obj : Obj) : Bool :=
  r.fields.all (fun p =>
    match alookup obj.attrs p.1 with
    | some v => v.yearInPivot
    | none => true)

/-- The attribute value of `obj` at `name` (present on valid instances). -/
def objField (obj : Obj) (name : String) : Value :=
  (alookup obj.attrs name).getD .vNone

/-- A returned column passes `_make_obj`'s checks: its name is a known
field, decoding succeeds, and the decoded value satisfies the type check. -/
def colPassB (r : Repo) (name : String) (val : SQLVal) : Bool :=
  match alookup r.fields name with
  | none => false
  | some t =>
    match make_val_from_sql t val with
    | .error _ => false
    | .ok v => valIsInstance v t

/-! Lemmas and claim theorems follow; every definition above precedes them. -/

theorem parseDigit_digitChar : ∀ d < 10, parseDigit (Nat.digitChar d) = some d := by
  decide

theorem parse2_pad2 (n : Nat) (rest : List Char) (hn : n < 100) :
    parse2 (pad2 n ++ rest) = some (n, rest) := by
  have h1 : n / 10 % 10 < 10 := Nat.mod_lt _ (by omega)
  have h2 : n % 10 < 10 := Nat.mod_lt _ (by omega)
  simp only [pad2, List.cons_append, List.nil_append, parse2,
    parseDigit_digitChar _ h1, parseDigit_digitChar _ h2,
    Option.some.injEq, Prod.mk.injEq]
  exact ⟨by omega, trivial⟩

theorem parseY2_pad2 (n : Nat) (rest : List Char) (hn : n < 100) :
    parseY2 (pad2 n ++ rest) = some (n, rest) := by
  have h1 : n / 10 % 10 < 10 := Nat.mod_lt _ (by omega)
  have h2 : n % 10 < 10 := Nat.mod_lt _ (by omega)
  simp only [pad2, List.cons_append, List.nil_append, parseY2,
    parseDigit_digitChar _ h1, parseDigit_digitChar _ h2,
    Option.bind_eq_bind, Option.some_bind, Option.pure_def,
    Option.some.injEq, Prod.mk.injEq]
  exact ⟨by omega, trivial⟩

theorem parseFrac_pad6 (n : Nat) (hn : n < 1000000) :
    parseFrac (pad6 n) = some (n, []) := by
  have h5 : n / 100000 % 10 < 10 := Nat.mod_lt _ (by omega)
  have h4 : n / 10000 % 10 < 10 := Nat.mod_lt _ (by omega)
  have h3 : n / 1000 % 10 < 10 := Nat.mod_lt _ (by omega)
  have h2 : n / 100 % 10 < 10 := Nat.mod_lt _ (by omega)
  have h1 : n / 10 % 10 < 10 := Nat.mod_lt _ (by omega)
  have h0 : n % 10 < 10 := Nat.mod_lt _ (by omega)
  simp only [parseFrac, pad6, parseDigits,
    parseDigit_digitChar _ h5, parseDigit_digitChar _ h4,
    parseDigit_digitChar _ h3, parseDigit_digitChar _ h2,
    parseDigit_digitChar _ h1, parseDigit_digitChar _ h0,
    Option.some.injEq, Prod.mk.injEq]
  refine ⟨?_, trivial⟩
  norm_num
  omega

theorem expectChar_cons (c : Char) (rest : List Char) :
    expectChar c (c :: rest) = some rest := by
  simp [expectChar]

theorem daysInMonth_le (y m : Nat) : daysInMonth y m ≤ 31 := by
  unfold daysInMonth
  split
  · split <;> omega
  · split <;> omega

/-- Unpacked form of the `datetime` constructor validity check. -/
theorem DateTime.valid_iff (dt : DateTime) :
    dt.valid = true ↔
      1 ≤ dt.year ∧ dt.year ≤ 9999 ∧ 1 ≤ dt.month ∧ dt.month ≤ 12 ∧
      1 ≤ dt.day ∧ dt.day ≤ daysInMonth dt.year dt.month ∧
      dt.hour ≤ 23 ∧ dt.minute ≤ 59 ∧ dt.second ≤ 59 ∧
      dt.microsecond ≤ 999999 := by
  simp [DateTime.valid, and_assoc]

/-- Core codec round trip: decoding the `strftime` rendering of a valid
datetime whose year lies in the two-digit pivot range gives it back. -/
theorem decode_encode_datetime (dt : DateTime) (hv : dt.valid = true)
    (hy1 : 1969 ≤ dt.year) (hy2 : dt.year ≤ 2068) :
    decodeDatetime (encodeDatetime dt) = some dt := by
  obtain ⟨_, _, _, hm, _, hd, hh, hmi, hs, hf⟩ := (DateTime.valid_iff dt).mp hv
  have hd' : dt.day < 100 := by
    have := daysInMonth_le dt.year dt.month
    omega
  show decodeChars (encodeChars dt) = some dt
  have hm' : dt.month < 100 := by omega
  have hy' : dt.year % 100 < 100 := by omega
  have hh' : dt.hour < 100 := by omega
  have hmi' : dt.minute < 100 := by omega
  have hs' : dt.second < 100 := by omega
  have hf' : dt.microsecond < 1000000 := by omega
  simp only [encodeChars, decodeChars, expectChar_cons,
    parse2_pad2, parseY2_pad2, parseFrac_pad6,
    hd', hm', hy', hh', hmi', hs', hf',
    Option.bind_eq_bind, Option.some_bind, ne_eq, not_true_eq_false,
    Bool.false_eq_true, if_false]
  have hyy : (if dt.year % 100 ≤ 68 then 2000 + dt.year % 100
      else 1900 + dt.year % 100) = dt.year := by
    by_cases h : dt.year % 100 ≤ 68
    · rw [if_pos h]; omega
    · rw [if_neg h]; omega
  rw [hyy]
  show (if dt.valid = true then some dt else none) = some dt
  rw [hv, if_pos rfl]

/-- A value of the declared runtime type survives the write-read codec:
encoding with `_val_to_sql` and decoding with `_make_val_from_sql` is the
identity (datetimes additionally need validity and a pivot-range year). -/
theorem make_val_roundtrip (t : PyType) (v : Value)
    (hinst : valIsInstance v t = true) (hwf : v.wf = true)
    (hpivot : v.yearInPivot = true) :
    make_val_from_sql t (val_to_sql v) = .ok v := by
  cases v with
  | vDatetime dt =>
    cases t with
    | pyDatetime =>
      have hp : 1969 ≤ dt.year ∧ dt.year ≤ 2068 := by
        simpa [Value.yearInPivot] using hpivot
      have hv : dt.valid = true := hwf
      show make_val_from_sql .pyDatetime (.sText (encodeDatetime dt)) =
        .ok (.vDatetime dt)
      simp only [make_val_from_sql, decode_encode_datetime dt hv hp.1 hp.2]
    | pyStr => simp [valIsInstance] at hinst
    | pyInt => simp [valIsInstance] at hinst
    | pyFloat => simp [valIsInstance] at hinst
    | pyOther n => simp [valIsInstance] at hinst
  | vStr s => cases t <;> first | rfl | simp [valIsInstance] at hinst
  | vInt n => cases t <;> first | rfl | simp [valIsInstance] at hinst
  | vFloat q => cases t <;> first | rfl | simp [valIsInstance] at hinst
  | vNone => cases t <;> simp [valIsInstance] at hinst

/-- Helper: `_decompose` succeeds on an instance carrying all the listed fields
and produces the encoded attribute values in field order. -/
theorem decomposeGo_eq (obj : Obj) (l : List (String × PyType))
    (hv : ∀ p ∈ l, (alookup obj.attrs p.1).isSome) :
    decomposeGo obj l = .ok (l.map (fun p => val_to_sql (objField obj p.1))) := by
  induction l with
  | nil => rfl
  | cons hd tl ih =>
    obtain ⟨v, hv2⟩ :=
      Option.isSome_iff_exists.mp (hv hd (List.mem_cons_self hd tl))
    have hov : objField obj hd.1 = v := by simp [objField, hv2]
    simp only [decomposeGo, hv2,
      ih (fun p hp => hv p (List.mem_cons_of_mem hd hp)),
      List.map_cons, hov]

/-- Lookup after `setattr`. -/
theorem alookup_setAttrList (attrs : List (String × Value)) (name key : String)
    (v : Value) :
    alookup (setAttrList attrs name v) key =
      if key = name then some v else alookup attrs key := by
  induction attrs with
  | nil =>
    show (if name = key then some v else none) =
      if key = name then some v else none
    by_cases h : name = key
    · rw [if_pos h, if_pos h.symm]
    · rw [if_neg h, if_neg fun hh => h hh.symm]
  | cons hd tl ih =>
    simp only [setAttrList]
    by_cases h : hd.1 = name
    · rw [if_pos h]
      simp only [alookup]
      by_cases hk : hd.1 = key
      · rw [if_pos hk, if_pos (hk.symm.trans h)]
      · rw [if_neg hk, if_neg (fun hh : key = name => hk (h.trans hh.symm)),
          if_neg hk]
    · rw [if_neg h]
      simp only [alookup, ih]
      by_cases hk : hd.1 = key
      · rw [if_pos hk, if_neg (fun hh : key = name => h (hk.trans hh)), if_pos hk]
      · rw [if_neg hk, if_neg hk]

/-- The `_make_obj` loop never touches the primary key and never touches
an attribute whose name is not among the processed columns. -/
theorem make_obj_go_frame (r : Repo) :
    ∀ (names : List String) (vals : List SQLVal) (obj obj2 : Obj),
      make_obj_go r obj names vals = .ok obj2 →
      obj2.primary_key = obj.primary_key ∧
      ∀ key, key ∉ names → alookup obj2.attrs key = alookup obj.attrs key := by
  intro names
  induction names with
  | nil =>
    intro vals obj obj2 h
    cases vals with
    | nil =>
      cases h
      exact ⟨rfl, fun _ _ => rfl⟩
    | cons hd tl => cases h
  | cons n ns ih =>
    intro vals obj obj2 h
    cases vals with
    | nil => cases h
    | cons val vs =>
      rcases hlook : alookup r.fields n with _ | t
      · simp only [make_obj_go, hlook] at h
        cases h
      · simp only [make_obj_go, hlook] at h
        rcases hmk : make_val_from_sql t val with e | mv
        · simp only [hmk] at h
          cases h
        · simp only [hmk] at h
          cases hinst : valIsInstance mv t with
          | false =>
            simp only [hinst, Bool.false_eq_true, if_false] at h
            cases h
          | true =>
            rw [hinst, if_pos rfl] at h
            obtain ⟨hpk, hattrs⟩ := ih vs (setattr obj n mv) obj2 h
            refine ⟨hpk.trans rfl, fun key hkey => ?_⟩
            have hk1 : key ≠ n := fun hh => hkey (hh ▸ List.mem_cons_self n ns)
            have hk2 : key ∉ ns := fun hh => hkey (List.mem_cons_of_mem n hh)
            rw [hattrs key hk2]
            show alookup (setAttrList obj.attrs n mv) key = _
            rw [alookup_setAttrList, if_neg hk1]

/-- Running the `_make_obj` loop over the Field Map columns of a valid
instance, with the values `_decompose` produced, succeeds and restores
every field. -/
theorem make_obj_go_fields (r : Repo) (obj : Obj) :
    ∀ (l : List (String × PyType)) (obj0 : Obj),
      (∀ p ∈ l, alookup r.fields p.1 = some p.2) →
      (∀ p ∈ l, ∃ v, alookup obj.attrs p.1 = some v ∧
        valIsInstance v p.2 = true ∧ v.wf = true ∧ v.yearInPivot = true) →
      (l.map (fun p => p.1)).Nodup →
      ∃ obj2,
        make_obj_go r obj0 (l.map (fun p => p.1))
          (l.map (fun p => val_to_sql (objField obj p.1))) = .ok obj2 ∧
        obj2.primary_key = obj0.primary_key ∧
        ∀ p ∈ l, alookup obj2.attrs p.1 = alookup obj.attrs p.1 := by
  intro l
  induction l with
  | nil => exact fun obj0 _ _ _ => ⟨obj0, rfl, rfl, by simp⟩
  | cons hd tl ih =>
    intro obj0 hsub hv hnd
    obtain ⟨v, hlook, hinst, hwf, hpiv⟩ := hv hd (List.mem_cons_self hd tl)
    have hov : objField obj hd.1 = v := by simp [objField, hlook]
    have hnd' : (tl.map (fun p => p.1)).Nodup := hnd.of_cons
    have hhd : hd.1 ∉ tl.map (fun p => p.1) := by
      simpa using (List.nodup_cons.mp hnd).1
    obtain ⟨obj2, hgo, hpk, hflds⟩ :=
      ih (setattr obj0 hd.1 v)
        (fun p hp => hsub p (List.mem_cons_of_mem hd hp))
        (fun p hp => hv p (List.mem_cons_of_mem hd hp)) hnd'
    refine ⟨obj2, ?_, ?_, ?_⟩
    · simp only [List.map_cons, make_obj_go,
        hsub hd (List.mem_cons_self hd tl), hov,
        make_val_roundtrip hd.2 v hinst hwf hpiv, hinst, if_true]
      exact hgo
    · rw [hpk]
      rfl
    · intro p hp
      rcases List.mem_cons.mp hp with hp | hp
      · subst hp
        obtain ⟨_, hframe⟩ := make_obj_go_frame r _ _ _ _ hgo
        rw [hframe p.1 hhd]
        show alookup (setAttrList obj0.attrs p.1 v) p.1 = _
        rw [alookup_setAttrList, if_pos rfl, hlook]
      · exact hflds p hp

/-- Every stored rowid is at most `maxKey`. -/
theorem pk_le_maxKey (db : DB) : ∀ row ∈ db.rows, row.pk ≤ maxKey db := by
  show ∀ row ∈ db.rows, row.pk ≤ db.rows.foldr (fun row acc => max row.pk acc) 0
  induction db.rows with
  | nil => intro row h; cases h
  | cons hd tl ih =>
    intro row h
    rcases List.mem_cons.mp h with h | h
    · subst h
      exact le_max_left _ _
    · exact le_trans (ih row h) (le_max_right _ _)

/-- With distinct field names, looking a field of the mapping up in the
mapping itself finds it. -/
theorem alookup_self {α : Type} (l : List (String × α))
    (hnd : (l.map (fun p => p.1)).Nodup) :
    ∀ p ∈ l, alookup l p.1 = some p.2 := by
  induction l with
  | nil => intro p hp; cases hp
  | cons hd tl ih =>
    intro p hp
    rcases List.mem_cons.mp hp with hp | hp
    · subst hp
      simp [alookup]
    · have hne : hd.1 ≠ p.1 := by
        intro hh
        have hmem : p.1 ∈ tl.map (fun q => q.1) := List.mem_map_of_mem _ hp
        rw [← hh] at hmem
        exact (List.nodup_cons.mp hnd).1 hmem
      simp only [alookup, if_neg hne]
      exact ih (List.nodup_cons.mp hnd).2 p hp

/-- Helper: `find?` over a list ending in the only matching element. -/
theorem find?_append_last {α : Type} (l : List α) (x : α) (p : α → Bool)
    (hl : ∀ y ∈ l, p y = false) (hx : p x = true) :
    (l ++ [x]).find? p = some x := by
  induction l with
  | nil => simp [List.find?, hx]
  | cons hd tl ih =>
    rw [List.cons_append,
      List.find?_cons_of_neg _ (by simp [hl hd (List.mem_cons_self hd tl)])]
    exact ih fun y hy => hl y (List.mem_cons_of_mem hd hy)

/-- Claim C1 (amended): for every valid record instance with primary key 0
whose date-time field values all carry a year in the two-digit pivot range
1969-2068, `add` followed by `get` with the returned key yields a record
equal to the original in every Field Map field, with the primary-key field
set to that returned key.  (Without the pivot-range condition the code
shifts out-of-range years across centuries; see the counterexample.) -/
theorem add_get_roundtrip (r : Repo) (db : DB) (obj : Obj)
    (hnd : (r.fields.map (fun p => p.1)).Nodup)
    (hpk : obj.primary_key = some 0)
    (hval : objValid r obj = true)
    (hpiv : objYearsInPivot r obj = true) :
    ∃ k db2 o,
      add r db obj = (.ok k, db2, ⟨some k, obj.attrs⟩) ∧
      get r db2 k = .ok (some o) ∧
      o.primary_key = some k ∧
      ∀ p ∈ r.fields, alookup o.attrs p.1 = alookup obj.attrs p.1 := by
  have hval' : ∀ p ∈ r.fields, ∃ v, alookup obj.attrs p.1 = some v ∧
      valIsInstance v p.2 = true ∧ v.wf = true ∧ v.yearInPivot = true := by
    intro p hp
    have h1 := (List.all_eq_true.mp hval) p hp
    have h2 := (List.all_eq_true.mp hpiv) p hp
    rcases hl : alookup obj.attrs p.1 with _ | v
    · simp only [hl] at h1
      cases h1
    · simp only [hl, Bool.and_eq_true] at h1 h2
      exact ⟨v, rfl, h1.1, h1.2, h2⟩
  have hs : ∀ p ∈ r.fields, (alookup obj.attrs p.1).isSome := by
    intro p hp
    obtain ⟨v, hv2, _⟩ := hval' p hp
    simp [hv2]
  have hdec : decompose r obj =
      .ok (r.fields.map (fun p => val_to_sql (objField obj p.1))) :=
    decomposeGo_eq obj r.fields hs
  obtain ⟨o, hgo, hopk, hof⟩ := make_obj_go_fields r obj r.fields
    ⟨some (newKey db), []⟩ (alookup_self r.fields hnd) hval' hnd
  refine ⟨newKey db,
    ⟨db.rows ++ [⟨newKey db, r.fields.map (fun p => val_to_sql (objField obj p.1))⟩]⟩,
    o, ?_, ?_, hopk, hof⟩
  · simp only [add, hpk, hdec]
    norm_num
  · have hfresh : ∀ row ∈ db.rows,
        (fun row => decide (row.pk = newKey db)) row = false := by
      intro row hrow
      have := pk_le_maxKey db row hrow
      simp only [decide_eq_false_iff_not]
      show ¬row.pk = maxKey db + 1
      omega
    have hfind := find?_append_last db.rows
      ⟨newKey db, r.fields.map (fun p => val_to_sql (objField obj p.1))⟩
      (fun row => decide (row.pk = newKey db)) hfresh (by simp)
    simp only [get, hfind, make_obj, hgo]

/-- Witness for C1 at a two-field record over an empty database. -/
theorem add_get_roundtrip_witness :
    ∃ k db2 o,
      add ⟨"mymodel", [("data", .pyInt), ("name", .pyStr)]⟩ ⟨[]⟩
          ⟨some 0, [("data", .vInt 5), ("name", .vStr "x")]⟩ =
        (.ok k, db2, ⟨some k, [("data", .vInt 5), ("name", .vStr "x")]⟩) ∧
      get ⟨"mymodel", [("data", .pyInt), ("name", .pyStr)]⟩ db2 k =
        .ok (some o) ∧
      o.primary_key = some k ∧
      ∀ p ∈ [("data", PyType.pyInt), ("name", PyType.pyStr)],
        alookup o.attrs p.1 =
          alookup [("data", Value.vInt 5), ("name", Value.vStr "x")] p.1 :=
  add_get_roundtrip ⟨"mymodel", [("data", .pyInt), ("name", .pyStr)]⟩ ⟨[]⟩
    ⟨some 0, [("data", .vInt 5), ("name", .vStr "x")]⟩
    (by decide) rfl (by decide) (by decide)

/-- Counterexample to C1 as stated: a valid record holding the valid
datetime 1900-01-01 00:00:00 comes back from `add` + `get` as 2000-01-01
(the `%y` pivot), so the retrieved record is not equal to the original. -/
theorem add_get_roundtrip_pivot_cex :
    objValid ⟨"mymodel", [("stamp", .pyDatetime)]⟩
        ⟨some 0, [("stamp", .vDatetime ⟨1900, 1, 1, 0, 0, 0, 0⟩)]⟩ = true ∧
    add ⟨"mymodel", [("stamp", .pyDatetime)]⟩ ⟨[]⟩
        ⟨some 0, [("stamp", .vDatetime ⟨1900, 1, 1, 0, 0, 0, 0⟩)]⟩ =
      (.ok 1, ⟨[⟨1, [.sText "01/01/00 00:00:00.000000"]⟩]⟩,
        ⟨some 1, [("stamp", .vDatetime ⟨1900, 1, 1, 0, 0, 0, 0⟩)]⟩) ∧
    get ⟨"mymodel", [("stamp", .pyDatetime)]⟩
        ⟨[⟨1, [.sText "01/01/00 00:00:00.000000"]⟩]⟩ 1 =
      .ok (some ⟨some 1, [("stamp", .vDatetime ⟨2000, 1, 1, 0, 0, 0, 0⟩)]⟩) ∧
    Value.vDatetime ⟨2000, 1, 1, 0, 0, 0, 0⟩ ≠
      Value.vDatetime ⟨1900, 1, 1, 0, 0, 0, 0⟩ := by
  refine ⟨by decide, rfl, rfl, by decide⟩

/-- The `_make_obj` loop, at the first column that does not pass: an
unknown name raises the unexpected-field `ValueError`, a failed type check
raises `TypeError`; and when the whole loop succeeds each column passed
and its decoded value was assigned. -/
theorem make_obj_go_column_checks (r : Repo) :
    ∀ (names : List String) (vals : List SQLVal) (j : Nat) (obj0 : Obj)
      (hj1 : j < names.length) (hj2 : j < vals.length),
      (∀ i (hi1 : i < names.length) (hi2 : i < vals.length), i < j →
        colPassB r (names.get ⟨i, hi1⟩) (vals.get ⟨i, hi2⟩) = true) →
      (alookup r.fields (names.get ⟨j, hj1⟩) = none →
        make_obj_go r obj0 names vals = .error (.valueError
          ("Unexpected field name: " ++ names.get ⟨j, hj1⟩))) ∧
      (∀ t v, alookup r.fields (names.get ⟨j, hj1⟩) = some t →
        make_val_from_sql t (vals.get ⟨j, hj2⟩) = .ok v →
        valIsInstance v t = false →
        make_obj_go r obj0 names vals = .error (.typeError
          ("Incompatible types: got " ++ v.pyTypeName ++ ", expected " ++
            t.pyName))) ∧
      (∀ obj2, make_obj_go r obj0 names vals = .ok obj2 →
        ∃ t v, alookup r.fields (names.get ⟨j, hj1⟩) = some t ∧
          make_val_from_sql t (vals.get ⟨j, hj2⟩) = .ok v ∧
          valIsInstance v t = true ∧
          (names.Nodup → alookup obj2.attrs (names.get ⟨j, hj1⟩) = some v)) := by
  intro names
  induction names with
  | nil =>
    intro vals j obj0 hj1
    exact absurd hj1 (by simp)
  | cons n ns ih =>
    intro vals j obj0 hj1 hj2 hprev
    cases vals with
    | nil => exact absurd hj2 (by simp)
    | cons val vs =>
      cases j with
      | zero =>
        refine ⟨?_, ?_, ?_⟩
        · intro hnone
          simp only [List.get] at hnone ⊢
          simp only [make_obj_go, hnone]
        · intro t v ht hv hbad
          simp only [List.get] at ht hv ⊢
          simp only [make_obj_go, ht, hv, hbad, Bool.false_eq_true, if_false]
        · intro obj2 hok
          simp only [List.get]
          rcases hl : alookup r.fields n with _ | t
          · simp only [make_obj_go, hl] at hok
            cases hok
          · rcases hmv : make_val_from_sql t val with e | v
            · simp only [make_obj_go, hl, hmv] at hok
              cases hok
            · cases hins : valIsInstance v t with
              | false =>
                simp only [make_obj_go, hl, hmv, hins, Bool.false_eq_true,
                  if_false] at hok
                cases hok
              | true =>
                simp only [make_obj_go, hl, hmv, hins, if_pos rfl] at hok
                refine ⟨t, v, rfl, hmv, hins, ?_⟩
                intro hnd2
                obtain ⟨_, hframe⟩ := make_obj_go_frame r ns vs _ obj2 hok
                have hn : n ∉ ns := by
                  simpa using (List.nodup_cons.mp hnd2).1
                rw [hframe n hn]
                show alookup (setAttrList obj0.attrs n v) n = some v
                rw [alookup_setAttrList, if_pos rfl]
      | succ j0 =>
        have hp0 := hprev 0 (by simp) (by simp) (Nat.succ_pos j0)
        simp only [List.get] at hp0
        rcases hl : alookup r.fields n with _ | t
        · simp only [colPassB, hl] at hp0
          cases hp0
        · rcases hmv : make_val_from_sql t val with e | v
          · simp only [colPassB, hl, hmv] at hp0
            cases hp0
          · have hins : valIsInstance v t = true := by
              simpa [colPassB, hl, hmv] using hp0
            have hstep : make_obj_go r obj0 (n :: ns) (val :: vs) =
                make_obj_go r (setattr obj0 n v) ns vs := by
              simp only [make_obj_go, hl, hmv, hins, if_pos rfl, if_true]
            have hj1b : j0 < ns.length := by simpa using hj1
            have hj2b : j0 < vs.length := by simpa using hj2
            have hprevb : ∀ i (hi1 : i < ns.length) (hi2 : i < vs.length),
                i < j0 → colPassB r (ns.get ⟨i, hi1⟩) (vs.get ⟨i, hi2⟩) = true := by
              intro i hi1 hi2 hij
              have := hprev (i + 1) (by simpa using hi1) (by simpa using hi2)
                (by omega)
              simpa [List.get] using this
            obtain ⟨ha, hb, hc⟩ := ih vs j0 (setattr obj0 n v) hj1b hj2b hprevb
            refine ⟨?_, ?_, ?_⟩
            · intro hnone
              rw [hstep]
              have := ha (by simpa [List.get] using hnone)
              simpa [List.get] using this
            · intro t2 v2 ht hv hbad
              rw [hstep]
              have := hb t2 v2 (by simpa [List.get] using ht)
                (by simpa [List.get] using hv) hbad
              simpa [List.get] using this
            · intro obj2 hok
              rw [hstep] at hok
              obtain ⟨t2, v2, h1, h2, h3, h4⟩ := hc obj2 hok
              refine ⟨t2, v2, by simpa [List.get] using h1,
                by simpa [List.get] using h2, h3, ?_⟩
              intro hnd2
              have := h4 (List.Nodup.of_cons hnd2)
              simpa [List.get] using this

/-- Claim C3: composing a record from a result row, for every returned
column: a name outside the Field Map raises the unexpected-field
`ValueError`; a decoded value whose runtime type fails the declared-type
check raises `TypeError`; otherwise the decoded value is assigned onto the
freshly constructed instance (provided the earlier columns passed). -/
theorem make_obj_column_checks (r : Repo) (k : Int)
    (names : List String) (vals : List SQLVal) (j : Nat)
    (hj1 : j < names.length) (hj2 : j < vals.length)
    (hprev : ∀ i (hi1 : i < names.length) (hi2 : i < vals.length), i < j →
      colPassB r (names.get ⟨i, hi1⟩) (vals.get ⟨i, hi2⟩) = true) :
    (alookup r.fields (names.get ⟨j, hj1⟩) = none →
      make_obj r k names vals = .error (.valueError
        ("Unexpected field name: " ++ names.get ⟨j, hj1⟩))) ∧
    (∀ t v, alookup r.fields (names.get ⟨j, hj1⟩) = some t →
      make_val_from_sql t (vals.get ⟨j, hj2⟩) = .ok v →
      valIsInstance v t = false →
      make_obj r k names vals = .error (.typeError
        ("Incompatible types: got " ++ v.pyTypeName ++ ", expected " ++
          t.pyName))) ∧
    (∀ obj2, make_obj r k names vals = .ok obj2 →
      ∃ t v, alookup r.fields (names.get ⟨j, hj1⟩) = some t ∧
        make_val_from_sql t (vals.get ⟨j, hj2⟩) = .ok v ∧
        valIsInstance v t = true ∧
        (names.Nodup → alookup obj2.attrs (names.get ⟨j, hj1⟩) = some v)) :=
  make_obj_go_column_checks r names vals j ⟨some k, []⟩ hj1 hj2 hprev

/-- Witness for C3: both error kinds and the success assignment at
concrete rows. -/
theorem make_obj_column_checks_witness :
    make_obj ⟨"m", [("a", .pyInt)]⟩ 7 ["bogus"] [.sInt 3] =
      .error (.valueError "Unexpected field name: bogus") ∧
    make_obj ⟨"m", [("a", .pyInt)]⟩ 7 ["a"] [.sText "x"] =
      .error (.typeError "Incompatible types: got str, expected int") :=
  ⟨(make_obj_column_checks ⟨"m", [("a", .pyInt)]⟩ 7 ["bogus"] [.sInt 3] 0
      (by decide) (by decide) (fun i hi1 hi2 h => absurd h (by omega))).1 rfl,
   (make_obj_column_checks ⟨"m", [("a", .pyInt)]⟩ 7 ["a"] [.sText "x"] 0
      (by decide) (by decide) (fun i hi1 hi2 h => absurd h (by omega))).2.1
      .pyInt (.vStr "x") rfl rfl rfl⟩

/-- Claim C4: for every date-time value with microsecond precision whose
year is representable by the two-digit scheme (the `%y` decode range
1969-2068), encoding with `_val_to_sql`'s fixed pattern and then decoding
with `_make_val_from_sql`'s `strptime` returns the original value. -/
theorem datetime_codec_roundtrip (dt : DateTime) (hv : dt.valid = true)
    (hy1 : 1969 ≤ dt.year) (hy2 : dt.year ≤ 2068) :
    decodeDatetime (encodeDatetime dt) = some dt :=
  decode_encode_datetime dt hv hy1 hy2

/-- Witness for C4 at a concrete datetime. -/
theorem datetime_codec_roundtrip_witness :
    decodeDatetime (encodeDatetime ⟨2024, 2, 29, 23, 59, 59, 999999⟩) =
      some ⟨2024, 2, 29, 23, 59, 59, 999999⟩ :=
  datetime_codec_roundtrip ⟨2024, 2, 29, 23, 59, 59, 999999⟩ (by decide)
    (by decide) (by decide)

/-- Claim C5: `add` on an object without the primary-key attribute fails
with the missing-attribute `ValueError`; on an object whose key is set but
non-zero it fails with the distinct already-filled `ValueError`; in both
cases the database is returned unchanged (no insert) and the instance is
untouched; and the two messages are distinct. -/
theorem add_pk_precondition (r : Repo) (db : DB) (obj : Obj) :
    (obj.primary_key = none →
      add r db obj = (.error (.valueError ("Trying to add object without `" ++
        PK_FIELD_NAME ++ "` attribute")), db, obj)) ∧
    (∀ k, obj.primary_key = some k → k ≠ 0 →
      add r db obj = (.error (.valueError ("Trying to add object with filled `" ++
        PK_FIELD_NAME ++ "` attribute")), db, obj)) ∧
    ("Trying to add object without `" ++ PK_FIELD_NAME ++ "` attribute" ≠
      "Trying to add object with filled `" ++ PK_FIELD_NAME ++ "` attribute") := by
  refine ⟨fun h => ?_, fun k hk hnz => ?_, by decide⟩
  · simp only [add, h]
  · simp only [add, hk, if_pos hnz]

/-- Witness for C5: both failure modes at concrete objects. -/
theorem add_pk_precondition_witness :
    add ⟨"m", [("data", .pyInt)]⟩ ⟨[]⟩ ⟨none, [("data", .vInt 7)]⟩ =
      (.error (.valueError "Trying to add object without `primary_key` attribute"),
        ⟨[]⟩, ⟨none, [("data", .vInt 7)]⟩) ∧
    add ⟨"m", [("data", .pyInt)]⟩ ⟨[]⟩ ⟨some 3, [("data", .vInt 7)]⟩ =
      (.error (.valueError "Trying to add object with filled `primary_key` attribute"),
        ⟨[]⟩, ⟨some 3, [("data", .vInt 7)]⟩) :=
  ⟨(add_pk_precondition ⟨"m", [("data", .pyInt)]⟩ ⟨[]⟩
      ⟨none, [("data", .vInt 7)]⟩).1 rfl,
   (add_pk_precondition ⟨"m", [("data", .pyInt)]⟩ ⟨[]⟩
      ⟨some 3, [("data", .vInt 7)]⟩).2.1 3 rfl (by decide)⟩

/-- Claim C6: when no row carries the targeted key, `update` fails with a
`ValueError` naming the key and `delete` fails with a `KeyError` naming
the key; the two error kinds are distinct constructors of `Err`. -/
theorem update_delete_missing_key (r : Repo) (db : DB) (obj : Obj) (k : Int)
    (hobj : obj.primary_key = some k)
    (hdec : ∃ vals, decompose r obj = .ok vals)
    (hmiss : ∀ row ∈ db.rows, row.pk ≠ k) :
    update r db obj = (.error (.valueError ("Trying to update object with key " ++
      toString k ++ ", which does not exist")), db) ∧
    delete r db k = (.error (.keyError ("Trying to delete object with key " ++
      toString k ++ ", which does not exist")), db) ∧
    (∀ m m2, Err.valueError m ≠ Err.keyError m2) := by
  obtain ⟨vals, hvals⟩ := hdec
  have hcount : db.rows.countP (fun row => decide (row.pk = k)) = 0 := by
    rw [List.countP_eq_zero]
    intro row hrow
    simpa using hmiss row hrow
  refine ⟨?_, ?_, fun m m2 h => by cases h⟩
  · simp only [update, hobj, hvals, hcount, if_true]
  · simp only [delete, hcount, if_true]

/-- Witness for C6 on an empty table. -/
theorem update_delete_missing_key_witness :
    update ⟨"m", [("data", .pyInt)]⟩ ⟨[]⟩ ⟨some 9, [("data", .vInt 7)]⟩ =
      (.error (.valueError "Trying to update object with key 9, which does not exist"),
        ⟨[]⟩) ∧
    delete ⟨"m", [("data", .pyInt)]⟩ ⟨[]⟩ 9 =
      (.error (.keyError "Trying to delete object with key 9, which does not exist"),
        ⟨[]⟩) :=
  ⟨(update_delete_missing_key ⟨"m", [("data", .pyInt)]⟩ ⟨[]⟩
      ⟨some 9, [("data", .vInt 7)]⟩ 9 rfl ⟨[.sInt 7], rfl⟩
      (by intro row hrow; cases hrow)).1,
   (update_delete_missing_key ⟨"m", [("data", .pyInt)]⟩ ⟨[]⟩
      ⟨some 9, [("data", .vInt 7)]⟩ 9 rfl ⟨[.sInt 7], rfl⟩
      (by intro row hrow; cases hrow)).2.1⟩

/-- Claim C9: the only mutation `add` performs on the caller's instance is
assigning the generated key on success; on any failure the instance and
the database come back unchanged.  (No other operation ever writes to the
caller's instance: `update`, `get`, `get_all` and `delete` contain no
attribute assignment, which the embedding reflects by their types — only
`add` returns an instance.) -/
theorem add_mutation_frame (r : Repo) (db : DB) (obj : Obj) :
    (∀ e db2 obj2, add r db obj = (.error e, db2, obj2) →
      obj2 = obj ∧ db2 = db) ∧
    (∀ k db2 obj2, add r db obj = (.ok k, db2, obj2) →
      obj2 = ⟨some k, obj.attrs⟩) := by
  constructor
  · intro e db2 obj2 h
    unfold add at h
    split at h
    · simp only [Prod.mk.injEq] at h
      exact ⟨h.2.2.symm, h.2.1.symm⟩
    · split at h
      · simp only [Prod.mk.injEq] at h
        exact ⟨h.2.2.symm, h.2.1.symm⟩
      · split at h
        · simp only [Prod.mk.injEq] at h
          exact ⟨h.2.2.symm, h.2.1.symm⟩
        · simp only [Prod.mk.injEq] at h
          cases h.1
  · intro k db2 obj2 h
    unfold add at h
    split at h
    · simp only [Prod.mk.injEq] at h
      cases h.1
    · split at h
      · simp only [Prod.mk.injEq] at h
        cases h.1
      · split at h
        · simp only [Prod.mk.injEq] at h
          cases h.1
        · simp only [Prod.mk.injEq] at h
          obtain ⟨h1, _, h3⟩ := h
          injection h1 with h1
          rw [← h3, ← h1]

/-- Witness for C9: a failure leaves the instance alone; a success sets
exactly the returned key. -/
theorem add_mutation_frame_witness :
    (⟨some 3, [("data", Value.vInt 7)]⟩ : Obj) = ⟨some 3, [("data", .vInt 7)]⟩ ∧
    (⟨some 1, [("data", Value.vInt 7)]⟩ : Obj) = ⟨some 1, [("data", .vInt 7)]⟩ :=
  ⟨((add_mutation_frame ⟨"m", [("data", .pyInt)]⟩ ⟨[]⟩
      ⟨some 3, [("data", .vInt 7)]⟩).1
      (.valueError "Trying to add object with filled `primary_key` attribute")
      ⟨[]⟩ ⟨some 3, [("data", .vInt 7)]⟩ rfl).1,
   (add_mutation_frame ⟨"m", [("data", .pyInt)]⟩ ⟨[]⟩
      ⟨some 0, [("data", .vInt 7)]⟩).2 1
      ⟨[⟨1, [.sInt 7]⟩]⟩ ⟨some 1, [("data", .vInt 7)]⟩ rfl⟩

/-- With distinct keys, `[where[name] for name in where]` is exactly the
mapping's values in iteration order. -/
theorem dictValues_nodup (w : List (String × Value))
    (hnd : (w.map (fun p => p.1)).Nodup) :
    dictValues w = w.map (fun p => p.2) := by
  unfold dictValues
  apply List.map_congr_left
  intro p hp
  rw [alookup_self w hnd p hp]
  rfl

/-- Claim C7: `get_all` without a filter selects all rows with no WHERE
clause and no parameters; with a filter, the WHERE clause is the " AND "
conjunction of one `name = ?` condition per filter key in the mapping's
iteration order, and the parameter list is the filter values in the same
order. -/
theorem get_all_filter_stmt (r : Repo) (w : List (String × Value))
    (hnd : (w.map (fun p => p.1)).Nodup) :
    getAllStmt r none =
      ("SELECT " ++ PK_FIELD_NAME ++ ", " ++ fieldNames r ++ " FROM " ++
        r.table_name, []) ∧
    getAllStmt r (some w) =
      ((getAllStmt r none).1 ++ " WHERE " ++
        String.intercalate " AND " (w.map (fun p => p.1 ++ " = ?")),
       w.map (fun p => p.2)) := by
  refine ⟨rfl, ?_⟩
  simp only [getAllStmt, dictValues_nodup w hnd]

/-- Witness for C7 at a one-key filter. -/
theorem get_all_filter_stmt_witness :
    getAllStmt ⟨"mymodel", [("data", .pyInt), ("name", .pyStr)]⟩ none =
      ("SELECT primary_key, data, name FROM mymodel", []) ∧
    getAllStmt ⟨"mymodel", [("data", .pyInt), ("name", .pyStr)]⟩
        (some [("data", .vInt 0)]) =
      ("SELECT primary_key, data, name FROM mymodel WHERE data = ?",
        [.vInt 0]) := by
  have h := get_all_filter_stmt ⟨"mymodel", [("data", .pyInt), ("name", .pyStr)]⟩
    [("data", .vInt 0)] (by decide)
  exact ⟨h.1.trans (by decide), h.2.trans (by decide)⟩

/-- Counterexample to C2 as stated: the primary key is interpolated into
the statement text of `get`, `update` and `delete` by the f-strings (the
text varies with the key), instead of being passed as a bound parameter. -/
theorem sql_pk_interpolated_cex :
    getStmt ⟨"mymodel", [("data", .pyInt)]⟩ 5 =
      "SELECT data FROM mymodel WHERE primary_key = 5" ∧
    getStmt ⟨"mymodel", [("data", .pyInt)]⟩ 5 ≠
      getStmt ⟨"mymodel", [("data", .pyInt)]⟩ 6 ∧
    updateStmt ⟨"mymodel", [("data", .pyInt)]⟩ 5 =
      "UPDATE mymodel SET (data) = (?) WHERE primary_key=5" ∧
    deleteStmt ⟨"mymodel", [("data", .pyInt)]⟩ 5 =
      "DELETE FROM mymodel WHERE primary_key=5" := by
  refine ⟨by decide, by decide, by decide, by decide⟩

/-- Claim C2 (amended): statement texts contain only identifiers derived
from type metadata — in particular the filter values of `get_all` never
reach the text and are bound as parameters in filter order, and insert and
update field values appear only as `?` placeholders — but the primary key
of `get`, `update` and `delete` is interpolated into the statement text,
not bound. -/
theorem sql_value_binding (r : Repo) (k : Int)
    (w w2 : List (String × Value))
    (hkeys : w.map (fun p => p.1) = w2.map (fun p => p.1))
    (hnd : (w.map (fun p => p.1)).Nodup) :
    (getAllStmt r (some w)).1 = (getAllStmt r (some w2)).1 ∧
    (getAllStmt r (some w)).2 = w.map (fun p => p.2) ∧
    insertStmt r = "INSERT INTO " ++ r.table_name ++ " (" ++ fieldNames r ++
      ") VALUES (" ++
      String.intercalate ", " (List.replicate r.fields.length "?") ++ ")" ∧
    getStmt r k = "SELECT " ++ fieldNames r ++ " FROM " ++ r.table_name ++
      " WHERE " ++ PK_FIELD_NAME ++ " = " ++ toString k ∧
    updateStmt r k = "UPDATE " ++ r.table_name ++ " SET (" ++ fieldNames r ++
      ") = (" ++
      String.intercalate ", " (List.replicate r.fields.length "?") ++
      ") WHERE " ++ PK_FIELD_NAME ++ "=" ++ toString k ∧
    deleteStmt r k = "DELETE FROM " ++ r.table_name ++ " WHERE " ++
      PK_FIELD_NAME ++ "=" ++ toString k := by
  refine ⟨?_, ?_, rfl, rfl, rfl, rfl⟩
  · have hm : w.map (fun p => p.1 ++ " = ?") = w2.map (fun p => p.1 ++ " = ?") := by
      have h1 : w.map (fun p => p.1 ++ " = ?") =
          (w.map (fun p => p.1)).map (fun s => s ++ " = ?") := by
        rw [List.map_map]
        rfl
      have h2 : w2.map (fun p => p.1 ++ " = ?") =
          (w2.map (fun p => p.1)).map (fun s => s ++ " = ?") := by
        rw [List.map_map]
        rfl
      rw [h1, h2, hkeys]
    simp only [getAllStmt, hm]
  · exact dictValues_nodup w hnd

/-- Witness for C2 at a concrete repository and filter. -/
theorem sql_value_binding_witness :
    (getAllStmt ⟨"mymodel", [("data", .pyInt)]⟩ (some [("data", .vInt 0)])).1 =
      (getAllStmt ⟨"mymodel", [("data", .pyInt)]⟩ (some [("data", .vInt 1)])).1 ∧
    (getAllStmt ⟨"mymodel", [("data", .pyInt)]⟩ (some [("data", .vInt 0)])).2 =
      [("data", Value.vInt 0)].map (fun p => p.2) :=
  ⟨(sql_value_binding ⟨"mymodel", [("data", .pyInt)]⟩ 5
      [("data", .vInt 0)] [("data", .vInt 1)] rfl (by decide)).1,
   (sql_value_binding ⟨"mymodel", [("data", .pyInt)]⟩ 5
      [("data", .vInt 0)] [("data", .vInt 1)] rfl (by decide)).2.1⟩

/-- Helper: `dict.pop` fails exactly when the key is not among the keys. -/
theorem popKey_eq_none {α : Type} (l : List (String × α)) (key : String) :
    popKey l key = none ↔ key ∉ l.map (fun p => p.1) := by
  induction l with
  | nil => simp [popKey]
  | cons hd tl ih =>
    obtain ⟨k0, v0⟩ := hd
    simp only [popKey, List.map_cons, List.mem_cons]
    split
    · rename_i h
      simp [h]
    · rename_i h
      split
      · rename_i rest2 heq
        simp only [reduceCtorEq, false_iff, not_not]
        refine Or.inr ?_
        by_contra hmem
        rw [ih.mpr hmem] at heq
        cases heq
      · rename_i heq
        constructor
        · intro _ hmem
          rcases hmem with hmem | hmem
          · exact h hmem.symm
          · exact ih.mp heq hmem
        · intro _
          rfl

/-- When some field type has no mapping, building the column list fails
with the unsupported-type `ValueError`. -/
theorem mapColumns_error_of_unsupported (l : List (String × PyType))
    (h : ∃ p ∈ l, ∀ s, map_to_sql p.2 ≠ .ok s) :
    ∃ msg, mapColumns l = .error (.valueError msg) := by
  induction l with
  | nil =>
    obtain ⟨p, hp, _⟩ := h
    cases hp
  | cons hd tl ih =>
    rcases hmap : map_to_sql hd.2 with e | s
    · have he : ∃ msg, e = Err.valueError msg := by
        cases h2 : hd.2 <;> rw [h2] at hmap
        · cases hmap
        · cases hmap
        · cases hmap
        · cases hmap
        · injection hmap with hmap
          exact ⟨_, hmap.symm⟩
      obtain ⟨msg, rfl⟩ := he
      exact ⟨msg, by simp [mapColumns, hmap]⟩
    · have hin : ∃ p ∈ tl, ∀ s2, map_to_sql p.2 ≠ .ok s2 := by
        obtain ⟨p, hp, hbad⟩ := h
        rcases List.mem_cons.mp hp with hp | hp
        · exact absurd (hp ▸ hmap) (hbad s)
        · exact ⟨p, hp, hbad⟩
      obtain ⟨msg, hmc⟩ := ih hin
      exact ⟨msg, by simp [mapColumns, hmap, hmc]⟩

/-- Claim C8 (amended): construction fails with the schema `TypeError`
when the descriptor declares zero annotated fields, with `KeyError` when
the annotations do not include the primary-key field, with the schema
`ValueError` when some remaining field type has no registered mapping, and
with the database's syntax error when no field is left beside the primary
key; otherwise it succeeds with the lower-cased table name and the popped
field map. -/
theorem makeRepo_schema_errors (clsName : String)
    (ann : List (String × PyType)) :
    (ann = [] → makeRepo clsName ann =
      .error (.typeError "Trying to create repository without annotated fields")) ∧
    (ann ≠ [] → popKey ann PK_FIELD_NAME = none →
      makeRepo clsName ann = .error (.keyError PK_FIELD_NAME)) ∧
    (∀ fields, ann ≠ [] → popKey ann PK_FIELD_NAME = some fields →
      (∃ p ∈ fields, ∀ s, map_to_sql p.2 ≠ .ok s) →
      ∃ msg, makeRepo clsName ann = .error (.valueError msg)) ∧
    (∀ fields cols, ann ≠ [] → popKey ann PK_FIELD_NAME = some fields →
      mapColumns fields = .ok cols → fields = [] →
      makeRepo clsName ann = .error (.operationalError "near \x22)\x22: syntax error")) ∧
    (∀ fields cols, ann ≠ [] → popKey ann PK_FIELD_NAME = some fields →
      mapColumns fields = .ok cols → fields ≠ [] →
      makeRepo clsName ann = .ok ⟨clsName.toLower, fields⟩) := by
  have hlen : ∀ (h : ann ≠ []), ¬ann.length = 0 := by
    intro h
    cases ann
    · exact absurd rfl h
    · simp
  refine ⟨?_, ?_, ?_, ?_, ?_⟩
  · intro h
    subst h
    rfl
  · intro h hpop
    simp only [makeRepo, if_neg (hlen h), hpop]
  · intro fields h hpop hbad
    obtain ⟨msg, hmc⟩ := mapColumns_error_of_unsupported fields hbad
    exact ⟨msg, by simp only [makeRepo, if_neg (hlen h), hpop, hmc]⟩
  · intro fields cols h hpop hmc hempty
    subst hempty
    simp only [makeRepo, if_neg (hlen h), hpop, hmc, List.isEmpty_nil, if_true]
  · intro fields cols h hpop hmc hne
    have : fields.isEmpty = false := by
      cases fields
      · exact absurd rfl hne
      · rfl
    simp only [makeRepo, if_neg (hlen h), hpop, hmc, this, Bool.false_eq_true,
      if_false]

/-- Witness for C8: the success branch on a well-formed descriptor. -/
theorem makeRepo_schema_errors_witness :
    makeRepo "MyModel" [("primary_key", .pyInt), ("data", .pyStr)] =
      .ok ⟨"MyModel".toLower, [("data", .pyStr)]⟩ :=
  (makeRepo_schema_errors "MyModel"
    [("primary_key", .pyInt), ("data", .pyStr)]).2.2.2.2
    [("data", .pyStr)] ["data TEXT"] (by decide) rfl rfl (by decide)

/-- Counterexample to C8 as stated: a descriptor with one annotated field
of a supported type, construction nevertheless fails — with `KeyError`,
outside the schema-error taxonomy — because no primary key is annotated. -/
theorem makeRepo_schema_cex :
    ([("data", PyType.pyInt)] ≠ ([] : List (String × PyType))) ∧
    map_to_sql .pyInt = .ok "INTEGER" ∧
    makeRepo "MyModel" [("data", .pyInt)] = .error (.keyError PK_FIELD_NAME) := by
  refine ⟨by decide, rfl, rfl⟩

/-- Claim C10: when the descriptor annotates at least one field but none
of them is the primary key, construction raises `KeyError` from the
`pop` of `PK_FIELD_NAME` — a kind outside the schema-error taxonomy. -/
theorem makeRepo_missing_pk_keyerror (clsName : String)
    (ann : List (String × PyType)) (hne : ann ≠ [])
    (hpk : PK_FIELD_NAME ∉ ann.map (fun p => p.1)) :
    makeRepo clsName ann = .error (.keyError PK_FIELD_NAME) := by
  have hlen : ¬ann.length = 0 := by
    cases ann
    · exact absurd rfl hne
    · simp
  simp only [makeRepo, if_neg hlen, (popKey_eq_none ann PK_FIELD_NAME).mpr hpk]

/-- Witness for C10 at a one-field descriptor. -/
theorem makeRepo_missing_pk_keyerror_witness :
    makeRepo "MyModel" [("data", .pyInt)] = .error (.keyError PK_FIELD_NAME) :=
  makeRepo_missing_pk_keyerror "MyModel" [("data", .pyInt)] (by decide)
    (by decide)

end Bookkeeper
